import Mathlib

/-!
Verification development for the taskmaster backend: per-user task
ownership, password change/reset flows, and registration, shallowly
embedded from the Django source (src/users/views.py,
src/backend/users/views.py, src/backend/tasks/views.py) with the data
model and serializers of the repository reconstructed from the
specification where their files are absent from src/.
-/

namespace TaskMaster

/-- A user record: unique id, unique username, unique email and the stored
password hash, as in the CustomUser model. -/
structure User where
  id : Nat
  username : String
  email : String
  passwordHash : String
  deriving DecidableEq, Repr

/-- Modelled from the spec: the salted slow hash of the credential store is
delegated to a standard library; we model it as an injective encoding of
the plaintext, the symbolic idealization of a collision-free hash. -/
def hashPassword (p : String) : String :=
  "pbkdf2$" ++ p

/-- Django set_password: store the hash of the new plaintext. -/
def set_password (u : User) (p : String) : User :=
  { u with passwordHash := hashPassword p }

/-- Django check_password: the stored hash matches the hash of the
candidate plaintext. -/
def check_password (u : User) (p : String) : Bool :=
  u.passwordHash == hashPassword p

/-- A password-reset token: the timestamp it was issued at, in clear, and
a MAC. Modelled from the spec: the default token generator derives the
proof deterministically from the server secret, the user id, a fingerprint
of the current password hash and the issue timestamp; the MAC is modelled
as the tuple of derivation inputs (symbolic idealization of the keyed
hash). -/
structure ResetToken where
  ts : Nat
  mac : String × Nat × String × Nat
  deriving DecidableEq, Repr

/-- Modelled from the spec: issue_reset_token derives the token from the
secret, the user id, the password-hash fingerprint and the current time. -/
def make_token (secret : String) (now : Nat) (u : User) : ResetToken :=
  ⟨now, (secret, u.id, u.passwordHash, now)⟩

/-- Modelled from the spec: verify_reset_token recomputes the expected
derivation from the current user state at the timestamp carried by the
token, compares, and checks the time window. -/
def check_token (secret : String) (timeout now : Nat) (u : User) (t : ResetToken) : Bool :=
  decide (t.mac = (secret, u.id, u.passwordHash, t.ts) ∧ t.ts ≤ now ∧ now - t.ts ≤ timeout)

/-- A JSON HTTP response: status code and a flat object body of
string-valued fields (the shape every handler in the source returns). -/
structure HttpResponse where
  code : Nat
  body : List (String × String)
  deriving DecidableEq, Repr

/-- The user table, queried by email or primary key. -/
abbrev UserDb := List User

/-- CustomUser.objects.filter(email=email).first() -/
def filterByEmail_first (db : UserDb) (e : String) : Option User :=
  db.find? (fun u => u.email == e)

/-- CustomUser.objects.get(pk=uid), returning none where the source
catches DoesNotExist. -/
def getByPk (db : UserDb) (pk : Nat) : Option User :=
  db.find? (fun u => u.id == pk)

/-- Store an updated user record under its primary key (user.save()). -/
def saveUser (db : UserDb) (u : User) : UserDb :=
  db.map (fun v => if v.id == u.id then u else v)

/-- Outcome of the send_mail collaborator call: none on success, or the
text of the raised exception. -/
abbrev MailOutcome := Option String

/-- PasswordResetRequestView.post of src/users/views.py: missing or empty
email is 400; an unknown email gets the generic 200 message; on a found
user the mail is attempted, 200 on success and a fixed-text 500 on a mail
exception. -/
def resetRequest_users (db : UserDb) (email : Option String) (mail : MailOutcome) :
    HttpResponse :=
  match email with
  | none => ⟨400, [("error", "Se requiere un correo electrónico")]⟩
  | some e =>
    if e == "" then ⟨400, [("error", "Se requiere un correo electrónico")]⟩
    else
      match filterByEmail_first db e with
      | none => ⟨200, [("message", "Si existe una cuenta con este correo, recibirá las instrucciones.")]⟩
      | some _ =>
        match mail with
        | none => ⟨200, [("message", "Se ha enviado un correo con las instrucciones")]⟩
        | some _ => ⟨500, [("error", "Error al enviar el correo. Por favor, intente más tarde.")]⟩

/-- PasswordResetRequestView.post of src/backend/users/views.py: same
shape, but an unknown email is a 404 error, and a mail exception is a 500
whose body interpolates the exception text. -/
def resetRequest_backend (db : UserDb) (email : Option String) (mail : MailOutcome) :
    HttpResponse :=
  match email with
  | none => ⟨400, [("error", "Se requiere un correo electrónico")]⟩
  | some e =>
    if e == "" then ⟨400, [("error", "Se requiere un correo electrónico")]⟩
    else
      match filterByEmail_first db e with
      | none => ⟨404, [("error", "No se encontró un usuario con este correo electrónico")]⟩
      | some _ =>
        match mail with
        | none => ⟨200, [("message", "Se ha enviado un correo con las instrucciones")]⟩
        | some err => ⟨500, [("error", "Error al enviar el correo: " ++ err)]⟩

/-- True exactly when the email field is present, non-blank, and matches
no user: the one region of inputs where the two request variants answer
differently. -/
def unknownEmail (db : UserDb) (email : Option String) : Bool :=
  match email with
  | none => false
  | some e => !(e == "") && !(filterByEmail_first db e).isSome

/-- The numeric value of a decimal digit character, none otherwise. -/
def digitVal (c : Char) : Option Nat :=
  if c = '0' then some 0 else if c = '1' then some 1 else if c = '2' then some 2
  else if c = '3' then some 3 else if c = '4' then some 4 else if c = '5' then some 5
  else if c = '6' then some 6 else if c = '7' then some 7 else if c = '8' then some 8
  else if c = '9' then some 9 else none

/-- urlsafe_base64_decode followed by the integer primary-key coercion,
with the TypeError/ValueError/OverflowError cases of the source mapped to
none: a string of decimal digits decodes to the primary key, anything
else fails. -/
def decodeUid (s : String) : Option Nat :=
  match s.data with
  | [] => none
  | cs => cs.foldl (fun acc c => acc.bind (fun n => (digitVal c).map (fun d => n * 10 + d))) (some 0)

/-- PasswordResetConfirmView.post (textually identical in
src/users/views.py and src/backend/users/views.py): decode the uid and
look the user up, every decoding or lookup failure collapsing to user =
none; when the user resolves and the token checks, a truthy new_password
is set and saved, while an absent or empty one is a distinct 400; every
other path is the uniform invalid-link 400. -/
def resetConfirm (secret : String) (timeout now : Nat) (db : UserDb)
    (uidb64 : String) (token : ResetToken) (new_password : Option String) :
    HttpResponse × UserDb :=
  match (decodeUid uidb64).bind (getByPk db) with
  | some u =>
    if check_token secret timeout now u token then
      match new_password with
      | some p =>
        if p == "" then
          (⟨400, [("error", "New password is required")]⟩, db)
        else
          (⟨200, [("message", "Password has been reset")]⟩, saveUser db (set_password u p))
      | none => (⟨400, [("error", "New password is required")]⟩, db)
    else (⟨400, [("error", "Invalid reset link")]⟩, db)
  | none => (⟨400, [("error", "Invalid reset link")]⟩, db)

/-- The body of a change-password request. -/
structure ChangePasswordBody where
  old_password : Option String
  new_password : Option String
  deriving DecidableEq, Repr

/-- ChangePasswordView.update: the serializer must validate (modelled from
the spec: ChangePasswordSerializer, absent from src/, requires both fields
present and non-blank), then the old password must verify against the
stored hash or a field error on old_password is returned with 400;
otherwise the new password is set, saved, and 200 returned. -/
def change_password (u : User) (b : ChangePasswordBody) : HttpResponse × User :=
  match b.old_password, b.new_password with
  | some op, some np =>
    if op == "" || np == "" then
      (⟨400, [("detail", "This field may not be blank.")]⟩, u)
    else if !(check_password u op) then
      (⟨400, [("old_password", "Wrong password.")]⟩, u)
    else
      (⟨200, [("message", "Password updated successfully")]⟩, set_password u np)
  | _, _ => (⟨400, [("detail", "This field is required.")]⟩, u)

/-- The body of a registration request. -/
structure RegisterBody where
  username : String
  email : String
  password : String
  password2 : String
  first_name : String
  last_name : String
  deriving DecidableEq, Repr

/-- Modelled from the spec: RegisterSerializer (serializers.py is not
under src/) collects per-field problems — required non-blank
username/email/password, matching confirmation, and uniqueness of
username and email against the credential store. -/
def registerErrors (db : UserDb) (b : RegisterBody) : List (String × String) :=
  (if b.username == "" then [("username", "This field is required.")] else []) ++
  (if !(b.username == "") && db.any (fun u => u.username == b.username) then
      [("username", "A user with that username already exists.")] else []) ++
  (if b.email == "" then [("email", "This field is required.")] else []) ++
  (if !(b.email == "") && db.any (fun u => u.email == b.email) then
      [("email", "A user with that email already exists.")] else []) ++
  (if b.password == "" then [("password", "This field is required.")] else []) ++
  (if b.password != b.password2 then [("password", "Password fields did not match.")] else [])

/-- RegisterView.create (same in both views.py variants): valid data
creates the user record (perform_create) and returns 201 with the success
message; otherwise the serializer errors are returned with 400 and no
record is created. -/
def register_create (db : UserDb) (nextId : Nat) (b : RegisterBody) :
    HttpResponse × UserDb :=
  let errs := registerErrors db b
  if errs.isEmpty then
    (⟨201, [("message", "User registered successfully")]⟩,
      db ++ [⟨nextId, b.username, b.email, hashPassword b.password⟩])
  else (⟨400, errs⟩, db)

/-- A task record, as in the Task model: id, owning user reference, and
the content fields. -/
structure Task where
  id : Nat
  user : Nat
  title : String
  description : String
  due_date : Option String
  priority : String
  status : String
  created_at : Nat
  deriving DecidableEq, Repr

/-- The task table. -/
abbrev TaskDb := List Task

/-- Insertion into a list kept in descending created_at order. -/
def insertByCreatedDesc (t : Task) : List Task → List Task
  | [] => [t]
  | x :: xs =>
    if x.created_at ≤ t.created_at then t :: x :: xs
    else x :: insertByCreatedDesc t xs

/-- order_by(-created_at): sort newest-created first. -/
def orderByCreatedDesc : List Task → List Task
  | [] => []
  | x :: xs => insertByCreatedDesc x (orderByCreatedDesc xs)

/-- TaskViewSet.get_queryset: only the tasks that belong to the
authenticated user, ordered by creation date descending. -/
def get_queryset (db : TaskDb) (uid : Nat) : List Task :=
  orderByCreatedDesc (db.filter (fun t => t.user == uid))

/-- The allowed priority set of the Task model. -/
def validPriority (s : String) : Bool :=
  s == "low" || s == "medium" || s == "high"

/-- The allowed status set of the Task model. -/
def validStatus (s : String) : Bool :=
  s == "pending" || s == "in_progress" || s == "completed"

/-- The body of a task-creation request; the user field models an owner
id a caller may try to smuggle in. -/
structure TaskCreateBody where
  title : String
  description : String
  due_date : Option String
  priority : String
  status : String
  user : Option Nat
  deriving DecidableEq, Repr

/-- Modelled from the spec: TaskSerializer validation (serializers.py is
not under src/) — title non-blank, priority and status in the allowed
sets. -/
def taskBodyValid (b : TaskCreateBody) : Bool :=
  !(b.title == "") && validPriority b.priority && validStatus b.status

/-- Status code plus the serialized task, for the task endpoints. -/
structure TaskResponse where
  code : Nat
  task : Option Task
  deriving DecidableEq, Repr

/-- TaskViewSet create plus perform_create: on valid data the task is
saved with user forced to the authenticated caller (serializer.save with
user=request.user), whatever user field the body carried. -/
def create_task (db : TaskDb) (callerId nextId now : Nat) (b : TaskCreateBody) :
    TaskResponse × TaskDb :=
  if taskBodyValid b then
    let t : Task := ⟨nextId, callerId, b.title, b.description, b.due_date, b.priority, b.status, now⟩
    (⟨201, some t⟩, db ++ [t])
  else (⟨400, none⟩, db)

/-- GET on the detail route: get_object looks the pk up inside the scoped
get_queryset, so a task that is absent or owned by someone else is 404. -/
def retrieve_task (db : TaskDb) (callerId tid : Nat) : TaskResponse :=
  match (get_queryset db callerId).find? (fun t => t.id == tid) with
  | some t => ⟨200, some t⟩
  | none => ⟨404, none⟩

/-- The body of a PATCH request: only the supplied fields are present. -/
structure TaskPatch where
  title : Option String
  description : Option String
  due_date : Option String
  priority : Option String
  status : Option String
  user : Option Nat
  deriving DecidableEq, Repr

/-- Modelled from the spec: TaskSerializer on a PATCH — only supplied
fields change, and a supplied owner field is ignored (owner immutable
after creation). -/
def applyPatch (t : Task) (p : TaskPatch) : Task :=
  { t with
    title := p.title.getD t.title
    description := p.description.getD t.description
    due_date := match p.due_date with | some d => some d | none => t.due_date
    priority := p.priority.getD t.priority
    status := p.status.getD t.status }

/-- Modelled from the spec: validation of the supplied subset of fields
on a PATCH. -/
def patchValid (p : TaskPatch) : Bool :=
  (match p.title with | some s => !(s == "") | none => true) &&
  (match p.priority with | some s => validPriority s | none => true) &&
  (match p.status with | some s => validStatus s | none => true)

/-- PATCH on the detail route: resolve the pk inside the scoped queryset
(404 when not owned or absent), validate, apply the partial update and
save. -/
def update_task (db : TaskDb) (callerId tid : Nat) (p : TaskPatch) :
    TaskResponse × TaskDb :=
  match (get_queryset db callerId).find? (fun t => t.id == tid) with
  | some t =>
    if patchValid p then
      let t₂ := applyPatch t p
      (⟨200, some t₂⟩, db.map (fun x => if x.id == tid then t₂ else x))
    else (⟨400, none⟩, db)
  | none => (⟨404, none⟩, db)

/-- DELETE on the detail route: resolve the pk inside the scoped queryset,
404 when not owned or absent, else remove the record and return 204. -/
def delete_task (db : TaskDb) (callerId tid : Nat) : TaskResponse × TaskDb :=
  match (get_queryset db callerId).find? (fun t => t.id == tid) with
  | some _ => (⟨204, none⟩, db.filter (fun x => !(x.id == tid)))
  | none => (⟨404, none⟩, db)

/-- A concrete user, for instantiating the theorems. -/
def aliceU : User :=
  ⟨1, "alice", "a@x.com", hashPassword "pw1"⟩

/-- A one-user table. -/
def dbA : UserDb :=
  [aliceU]

/-- A concrete task owned by user 1. -/
def taskA : Task :=
  ⟨1, 1, "Existing Task", "Existing Description", some "2024-12-31", "medium", "pending", 100⟩

/-- A concrete task owned by user 2. -/
def taskB : Task :=
  ⟨2, 2, "Other User Task", "Other Description", none, "low", "pending", 101⟩

/-- A two-task table with one task per user. -/
def tdb : TaskDb :=
  [taskA, taskB]

end TaskMaster

namespace TaskMaster

/-- C4: changing the password changes the derivation input, so a token
issued before the change no longer verifies. -/
theorem token_invalid_after_password_change
    (secret : String) (timeout now ts : Nat) (u : User) (p : String)
    (hchange : hashPassword p ≠ u.passwordHash) :
    check_token secret timeout now (set_password u p) (make_token secret ts u) = false := by
  simp only [check_token, make_token, set_password, decide_eq_false_iff_not, Prod.mk.injEq]
  intro hcontr
  exact hchange hcontr.1.2.2.1.symm

/-- Witness for C4 at a concrete user and password change. -/
theorem token_invalid_after_password_change_witness :
    hashPassword "newpass" ≠ aliceU.passwordHash ∧
    check_token "sk" 3600 50 (set_password aliceU "newpass") (make_token "sk" 10 aliceU) = false := by
  refine ⟨by decide, ?_⟩
  exact token_invalid_after_password_change "sk" 3600 50 10 aliceU "newpass" (by decide)

/-- C3: whenever the confirm request fails — undecodable uid, unknown
user, or a token that does not verify — the response is the single
uniform invalid-link 400 and the store is untouched, with no distinction
between the failing checks. -/
theorem resetConfirm_uniform_invalid_link
    (secret : String) (timeout now : Nat) (db : UserDb) (uidb64 : String)
    (token : ResetToken) (np : Option String)
    (hfail : ((decodeUid uidb64).bind (getByPk db)).all
      (fun u => !check_token secret timeout now u token) = true) :
    resetConfirm secret timeout now db uidb64 token np =
      (⟨400, [("error", "Invalid reset link")]⟩, db) := by
  rcases hb : (decodeUid uidb64).bind (getByPk db) with _ | u
  · simp [resetConfirm, hb]
  · rw [hb] at hfail
    simp only [Option.all_some, Bool.not_eq_true'] at hfail
    simp [resetConfirm, hb, hfail]

/-- Witness for C3: a syntactically valid uid naming the stored user, but
a token with a wrong MAC, is answered with the uniform invalid-link
response. -/
theorem resetConfirm_uniform_invalid_link_witness :
    resetConfirm "sk" 3600 50 dbA "1" ⟨10, ("bad", 0, "x", 0)⟩ (some "np") =
      (⟨400, [("error", "Invalid reset link")]⟩, dbA) := by
  exact resetConfirm_uniform_invalid_link "sk" 3600 50 dbA "1" ⟨10, ("bad", 0, "x", 0)⟩
    (some "np") (by decide)

/-- C10: when the uid resolves and the token verifies but new_password is
missing or blank, the confirm endpoint returns the distinct
password-required 400, leaves the store unchanged, and the same link
still succeeds with any non-blank password afterwards — a validity oracle
that does not consume the link. -/
theorem resetConfirm_password_required_oracle
    (secret : String) (timeout now : Nat) (db : UserDb) (uidb64 : String)
    (token : ResetToken) (u : User)
    (hu : (decodeUid uidb64).bind (getByPk db) = some u)
    (htok : check_token secret timeout now u token = true)
    (np : Option String) (hnp : np = none ∨ np = some "") :
    resetConfirm secret timeout now db uidb64 token np =
      (⟨400, [("error", "New password is required")]⟩, db) ∧
    (⟨400, [("error", "New password is required")]⟩ : HttpResponse) ≠
      ⟨400, [("error", "Invalid reset link")]⟩ ∧
    ∀ p : String, (p == "") = false →
      (resetConfirm secret timeout now db uidb64 token (some p)).1.code = 200 := by
  refine ⟨?_, by decide, ?_⟩
  · rcases hnp with h | h <;> subst h <;> simp [resetConfirm, hu, htok]
  · intro p hp
    simp [resetConfirm, hu, htok, hp]

/-- Witness for C10: a valid link for the stored user with no new
password returns the password-required error and leaves the table as it
was. -/
theorem resetConfirm_password_required_oracle_witness :
    resetConfirm "sk" 3600 50 dbA "1" (make_token "sk" 10 aliceU) none =
      (⟨400, [("error", "New password is required")]⟩, dbA) :=
  (resetConfirm_password_required_oracle "sk" 3600 50 dbA "1" (make_token "sk" 10 aliceU)
    aliceU (by decide) (by decide) none (Or.inl rfl)).1

/-- C5 counterexample: the two password-reset-request variants are not
behaviourally equal — on an email matching no user one answers the
generic 200 message and the other a 404 error. -/
theorem resetRequest_variants_differ :
    resetRequest_users dbA (some "nobody@x.com") none ≠
      resetRequest_backend dbA (some "nobody@x.com") none := by
  decide

/-- C5 (amended): the two variants disagree exactly on a present,
non-blank email matching no user, where the users variant returns 200 and
the backend variant 404; every other input gets the same status code from
both. -/
theorem resetRequest_variants_agreement
    (db : UserDb) (email : Option String) (mail : MailOutcome) :
    ((resetRequest_users db email mail).code = (resetRequest_backend db email mail).code
      ↔ unknownEmail db email = false) ∧
    (unknownEmail db email = true →
      (resetRequest_users db email mail).code = 200 ∧
      (resetRequest_backend db email mail).code = 404) := by
  rcases email with _ | e
  · simp [resetRequest_users, resetRequest_backend, unknownEmail]
  · rcases he : e == "" with _ | _
    · rcases hf : filterByEmail_first db e with _ | u
      · simp [resetRequest_users, resetRequest_backend, unknownEmail, he, hf]
      · rcases mail with _ | err <;>
          simp [resetRequest_users, resetRequest_backend, unknownEmail, he, hf]
    · simp [resetRequest_users, resetRequest_backend, unknownEmail, he]

/-- Witness for C5 (amended) at the concrete disagreeing input. -/
theorem resetRequest_variants_agreement_witness :
    (resetRequest_users dbA (some "nobody@x.com") none).code = 200 ∧
    (resetRequest_backend dbA (some "nobody@x.com") none).code = 404 :=
  (resetRequest_variants_agreement dbA (some "nobody@x.com") none).2 (by decide)

/-- C6 counterexample: the backend variant interpolates the mail
exception text into the 500 response body, so transport internals reach
the caller. -/
theorem resetRequest_backend_leaks_mail_error :
    resetRequest_backend dbA (some "a@x.com") (some "SMTP connection refused") =
      ⟨500, [("error", "Error al enviar el correo: " ++ "SMTP connection refused")]⟩ := by
  decide

/-- C6 (amended): with a found user and a failing mail dispatch, both
variants answer 500 — distinct from any address-not-found answer — and
the users variant body is a fixed message carrying nothing of the
exception, while the backend variant body embeds the exception text. -/
theorem resetRequest_mail_failure_reporting
    (db : UserDb) (e : String) (u : User) (err : String)
    (hf : filterByEmail_first db e = some u) (hne : (e == "") = false) :
    resetRequest_users db (some e) (some err) =
      ⟨500, [("error", "Error al enviar el correo. Por favor, intente más tarde.")]⟩ ∧
    resetRequest_backend db (some e) (some err) =
      ⟨500, [("error", "Error al enviar el correo: " ++ err)]⟩ ∧
    (resetRequest_users db (some e) (some err)).code ≠ 404 ∧
    (resetRequest_users db (some e) (some err)).code ≠ 200 := by
  refine ⟨?_, ?_, ?_, ?_⟩ <;>
    simp [resetRequest_users, resetRequest_backend, hf, hne]

/-- Witness for C6 (amended) at a concrete user and mail failure. -/
theorem resetRequest_mail_failure_reporting_witness :
    resetRequest_users dbA (some "a@x.com") (some "boom") =
      ⟨500, [("error", "Error al enviar el correo. Por favor, intente más tarde.")]⟩ :=
  (resetRequest_mail_failure_reporting dbA "a@x.com" aliceU "boom" (by decide) (by decide)).1

/-- C8: with both fields supplied and non-blank, a wrong old password is
answered with a 400 field error on old_password and the stored record —
hash included — is untouched; and any 200 from the endpoint certifies
that the supplied old password verified. -/
theorem change_password_wrong_old
    (u : User) (op np : String)
    (hop : (op == "") = false) (hnp : (np == "") = false)
    (hwrong : check_password u op = false) :
    change_password u ⟨some op, some np⟩ =
      (⟨400, [("old_password", "Wrong password.")]⟩, u) ∧
    ∀ b : ChangePasswordBody, (change_password u b).1.code = 200 →
      ∃ op₂, b.old_password = some op₂ ∧ check_password u op₂ = true := by
  constructor
  · simp [change_password, hop, hnp, hwrong]
  · intro b hb
    rcases b with ⟨bop, bnp⟩
    rcases bop with _ | op₂ <;> rcases bnp with _ | np₂
    · simp [change_password] at hb
    · simp [change_password] at hb
    · simp [change_password] at hb
    · rcases h1 : (op₂ == "") || (np₂ == "") with _ | _
      · rcases h2 : check_password u op₂ with _ | _
        · simp [change_password, h1, h2] at hb
        · exact ⟨op₂, rfl, h2⟩
      · simp [change_password, h1] at hb

/-- Witness for C8: alice with a wrong old password gets the field error
and keeps her stored hash. -/
theorem change_password_wrong_old_witness :
    change_password aliceU ⟨some "WrongPass123!", some "NewTestPass123!"⟩ =
      (⟨400, [("old_password", "Wrong password.")]⟩, aliceU) :=
  (change_password_wrong_old aliceU "WrongPass123!" "NewTestPass123!"
    (by decide) (by decide) (by decide)).1

/-- An empty error list from the register serializer means the username
was supplied and is not yet taken. -/
theorem registerErrors_nil_username_facts
    (db : UserDb) (b : RegisterBody) (hok : registerErrors db b = []) :
    (b.username == "") = false ∧ db.any (fun u => u.username == b.username) = false := by
  unfold registerErrors at hok
  rcases h1 : b.username == "" with _ | _
  · rcases h2 : db.any (fun u => u.username == b.username) with _ | _
    · exact ⟨rfl, rfl⟩
    · rw [h1, h2] at hok
      simp at hok
  · rw [h1] at hok
    simp at hok

/-- A registration whose username is supplied and already taken fails
with the duplicate-username field error among the serializer errors. -/
theorem registerErrors_dup_username
    (db : UserDb) (b : RegisterBody)
    (hne : (b.username == "") = false)
    (htaken : db.any (fun u => u.username == b.username) = true) :
    ("username", "A user with that username already exists.") ∈ registerErrors db b ∧
      registerErrors db b ≠ [] := by
  have hmem : ("username", "A user with that username already exists.") ∈ registerErrors db b := by
    unfold registerErrors
    rw [hne, htaken]
    simp
  exact ⟨hmem, List.ne_nil_of_mem hmem⟩

/-- C9: valid registration data yields 201 and exactly one stored record
with that username; registering again with the same username yields 400
with the duplicate-username field error and an unchanged table. -/
theorem register_unique_username
    (db : UserDb) (n m : Nat) (b b₂ : RegisterBody)
    (hok : registerErrors db b = [])
    (hsame : b₂.username = b.username) :
    (register_create db n b).1.code = 201 ∧
    ((register_create db n b).2.filter (fun u => u.username == b.username)).length = 1 ∧
    (register_create (register_create db n b).2 m b₂).1.code = 400 ∧
    ("username", "A user with that username already exists.") ∈
      (register_create (register_create db n b).2 m b₂).1.body ∧
    (register_create (register_create db n b).2 m b₂).2 = (register_create db n b).2 := by
  obtain ⟨hne, hnotaken⟩ := registerErrors_nil_username_facts db b hok
  have hmain : register_create db n b =
      (⟨201, [("message", "User registered successfully")]⟩,
        db ++ [⟨n, b.username, b.email, hashPassword b.password⟩]) := by
    simp [register_create, hok]
  have hne₂ : (b₂.username == "") = false := by rw [hsame]; exact hne
  have htaken₂ : (db ++ [(⟨n, b.username, b.email, hashPassword b.password⟩ : User)]).any
      (fun u => u.username == b₂.username) = true := by
    simp [hsame]
  obtain ⟨hdup, hnonnil⟩ := registerErrors_dup_username
    (db ++ [⟨n, b.username, b.email, hashPassword b.password⟩]) b₂ hne₂ htaken₂
  have hF : (registerErrors (db ++ [(⟨n, b.username, b.email, hashPassword b.password⟩ : User)])
      b₂).isEmpty = false := by
    rw [List.isEmpty_eq_false]
    exact hnonnil
  have hsecond : register_create (db ++ [(⟨n, b.username, b.email, hashPassword b.password⟩ : User)]) m b₂ =
      (⟨400, registerErrors (db ++ [⟨n, b.username, b.email, hashPassword b.password⟩]) b₂⟩,
        db ++ [⟨n, b.username, b.email, hashPassword b.password⟩]) := by
    simp [register_create, hF]
  refine ⟨by rw [hmain], ?_, ?_, ?_, ?_⟩
  · rw [hmain]
    have hnil : db.filter (fun u => u.username == b.username) = [] := by
      rw [List.filter_eq_nil_iff]
      exact List.any_eq_false.mp hnotaken
    simp [hnil]
  · rw [hmain, hsecond]
  · rw [hmain, hsecond]
    exact hdup
  · rw [hmain, hsecond]

/-- Witness for C9: registering alice into an empty table, then again
with the same username. -/
theorem register_unique_username_witness :
    (register_create [] 1 ⟨"alice", "a@x.com", "P@ss1234", "P@ss1234", "", ""⟩).1.code = 201 ∧
    ((register_create [] 1 ⟨"alice", "a@x.com", "P@ss1234", "P@ss1234", "", ""⟩).2.filter
      (fun u => u.username == "alice")).length = 1 ∧
    (register_create (register_create [] 1 ⟨"alice", "a@x.com", "P@ss1234", "P@ss1234", "", ""⟩).2 2
      ⟨"alice", "b@x.com", "P@ss1234", "P@ss1234", "", ""⟩).1.code = 400 ∧
    ("username", "A user with that username already exists.") ∈
      (register_create (register_create [] 1 ⟨"alice", "a@x.com", "P@ss1234", "P@ss1234", "", ""⟩).2 2
        ⟨"alice", "b@x.com", "P@ss1234", "P@ss1234", "", ""⟩).1.body ∧
    (register_create (register_create [] 1 ⟨"alice", "a@x.com", "P@ss1234", "P@ss1234", "", ""⟩).2 2
      ⟨"alice", "b@x.com", "P@ss1234", "P@ss1234", "", ""⟩).2 =
      (register_create [] 1 ⟨"alice", "a@x.com", "P@ss1234", "P@ss1234", "", ""⟩).2 :=
  register_unique_username [] 1 2 ⟨"alice", "a@x.com", "P@ss1234", "P@ss1234", "", ""⟩
    ⟨"alice", "b@x.com", "P@ss1234", "P@ss1234", "", ""⟩ (by decide) rfl

/-- Ordered insertion preserves membership. -/
theorem mem_insertByCreatedDesc (t x : Task) (l : List Task) :
    x ∈ insertByCreatedDesc t l ↔ x = t ∨ x ∈ l := by
  induction l with
  | nil => simp [insertByCreatedDesc]
  | cons y ys ih =>
    by_cases h : y.created_at ≤ t.created_at
    · simp [insertByCreatedDesc, h, List.mem_cons]
    · simp only [insertByCreatedDesc, if_neg h, List.mem_cons, ih]
      tauto

/-- Sorting by creation date preserves membership. -/
theorem mem_orderByCreatedDesc (x : Task) (l : List Task) :
    x ∈ orderByCreatedDesc l ↔ x ∈ l := by
  induction l with
  | nil => simp [orderByCreatedDesc]
  | cons y ys ih =>
    simp [orderByCreatedDesc, mem_insertByCreatedDesc, ih, List.mem_cons]

/-- The scoped queryset is exactly the slice of the table owned by the
caller. -/
theorem mem_get_queryset (db : TaskDb) (uid : Nat) (x : Task) :
    x ∈ get_queryset db uid ↔ x ∈ db ∧ x.user = uid := by
  simp [get_queryset, mem_orderByCreatedDesc, List.mem_filter]

/-- find? on a list where the predicate picks out one known element. -/
theorem find?_eq_some_of_unique {α : Type} (l : List α) (q : α → Bool) (a : α)
    (ha : a ∈ l) (hqa : q a = true) (huniq : ∀ x ∈ l, q x = true → x = a) :
    l.find? q = some a := by
  induction l with
  | nil => cases ha
  | cons y ys ih =>
    rcases hy : q y with _ | _
    · rw [List.find?_cons_of_neg _ (by simp [hy])]
      rcases List.mem_cons.mp ha with h | h
      · rw [h] at hqa
        rw [hqa] at hy
        cases hy
      · exact ih h (fun x hx hqx => huniq x (List.mem_cons_of_mem y hx) hqx)
    · rw [List.find?_cons_of_pos _ hy]
      rw [huniq y (List.mem_cons_self y ys) hy]

/-- The scoped queryset resolves no pk that the table only holds for
another owner. -/
theorem get_queryset_find_none
    (db : TaskDb) (A B tid : Nat) (hAB : A ≠ B)
    (huniq : ∀ x ∈ db, x.id = tid → x.user = A) :
    (get_queryset db B).find? (fun t => t.id == tid) = none := by
  rw [List.find?_eq_none]
  intro x hx
  rw [mem_get_queryset] at hx
  simp only [beq_iff_eq]
  intro hxid
  exact hAB (((huniq x hx.1 hxid).symm).trans hx.2)

/-- C1: a task of user A is invisible to user B: get, update and delete
by B answer 404 — the same response as a genuinely missing id, never a
403 — with the table unchanged, and B's list never includes the task. -/
theorem task_ownership_isolation
    (db : TaskDb) (A B fresh : Nat) (T : Task) (p : TaskPatch)
    (hAB : A ≠ B) (hT : T ∈ db) (hTA : T.user = A)
    (hids : (db.map Task.id).Nodup)
    (hfresh : ∀ t ∈ db, t.id ≠ fresh) :
    retrieve_task db B T.id = ⟨404, none⟩ ∧
    retrieve_task db B T.id = retrieve_task db B fresh ∧
    update_task db B T.id p = (⟨404, none⟩, db) ∧
    delete_task db B T.id = (⟨404, none⟩, db) ∧
    T ∉ get_queryset db B := by
  have hinj := List.inj_on_of_nodup_map hids
  have huniqT : ∀ x ∈ db, x.id = T.id → x.user = A := by
    intro x hx hid
    have hxT : x = T := hinj hx hT hid
    rw [hxT, hTA]
  have h1 := get_queryset_find_none db A B T.id hAB huniqT
  have huniqF : ∀ x ∈ db, x.id = fresh → x.user = A :=
    fun x hx hid => absurd hid (hfresh x hx)
  have h2 := get_queryset_find_none db A B fresh hAB huniqF
  refine ⟨?_, ?_, ?_, ?_, ?_⟩
  · simp [retrieve_task, h1]
  · simp [retrieve_task, h1, h2]
  · simp [update_task, h1]
  · simp [delete_task, h1]
  · intro hmem
    rw [mem_get_queryset] at hmem
    exact hAB (hTA.symm.trans hmem.2)

/-- Witness for C1: user 1 cannot see, patch, delete or list the task of
user 2. -/
theorem task_ownership_isolation_witness :
    retrieve_task tdb 1 taskB.id = ⟨404, none⟩ ∧
    retrieve_task tdb 1 taskB.id = retrieve_task tdb 1 999 ∧
    update_task tdb 1 taskB.id ⟨none, none, none, none, none, none⟩ = (⟨404, none⟩, tdb) ∧
    delete_task tdb 1 taskB.id = (⟨404, none⟩, tdb) ∧
    taskB ∉ get_queryset tdb 1 :=
  task_ownership_isolation tdb 2 1 999 taskB ⟨none, none, none, none, none, none⟩
    (by decide) (by decide) (by decide) (by decide) (by decide)

/-- C2: whatever owner field the body carries, a created task belongs to
the authenticated caller. -/
theorem create_task_owner_is_caller
    (db : TaskDb) (callerId nextId now : Nat) (b : TaskCreateBody) (t : Task)
    (h : (create_task db callerId nextId now b).1.task = some t) :
    t.user = callerId := by
  rcases hv : taskBodyValid b with _ | _
  · rw [create_task, hv] at h
    simp at h
  · rw [create_task, hv] at h
    simp at h
    rw [← h]

/-- Witness for C2: a body smuggling user 42 still creates a task owned
by caller 1. -/
theorem create_task_owner_is_caller_witness :
    (Task.mk 7 1 "Buy milk" "" none "high" "pending" 5).user = 1 :=
  create_task_owner_is_caller [] 1 7 5 ⟨"Buy milk", "", none, "high", "pending", some 42⟩
    (Task.mk 7 1 "Buy milk" "" none "high" "pending" 5) (by decide)

/-- C7: a PATCH supplying only the status changes only the status: the
response and the stored record keep title, description, due date,
priority and owner, and the status becomes the supplied value. -/
theorem update_task_status_frame
    (db : TaskDb) (uid : Nat) (T : Task) (s : String)
    (hT : T ∈ db) (hTu : T.user = uid)
    (hids : (db.map Task.id).Nodup)
    (hs : validStatus s = true) :
    update_task db uid T.id ⟨none, none, none, none, some s, none⟩ =
      (⟨200, some { T with status := s }⟩,
        db.map (fun x => if x.id == T.id then { T with status := s } else x)) ∧
    ({ T with status := s } : Task).title = T.title ∧
    ({ T with status := s } : Task).description = T.description ∧
    ({ T with status := s } : Task).due_date = T.due_date ∧
    ({ T with status := s } : Task).priority = T.priority ∧
    ({ T with status := s } : Task).user = T.user ∧
    ({ T with status := s } : Task).status = s := by
  have hinj := List.inj_on_of_nodup_map hids
  have hfind : (get_queryset db uid).find? (fun t => t.id == T.id) = some T := by
    apply find?_eq_some_of_unique
    · exact (mem_get_queryset db uid T).mpr ⟨hT, hTu⟩
    · simp
    · intro x hx hqx
      exact hinj ((mem_get_queryset db uid x).mp hx).1 hT (by simpa using hqx)
  have hpv : patchValid ⟨none, none, none, none, some s, none⟩ = true := by
    simp [patchValid, hs]
  refine ⟨?_, rfl, rfl, rfl, rfl, rfl, rfl⟩
  simp [update_task, hfind, hpv, applyPatch]

/-- Witness for C7: patching only the status of the stored task. -/
theorem update_task_status_frame_witness :
    update_task tdb 1 taskA.id ⟨none, none, none, none, some "in_progress", none⟩ =
      (⟨200, some { taskA with status := "in_progress" }⟩,
        tdb.map (fun x => if x.id == taskA.id then { taskA with status := "in_progress" } else x)) :=
  (update_task_status_frame tdb 1 taskA "in_progress"
    (by decide) (by decide) (by decide) (by decide)).1

end TaskMaster
